import Mathlib

/-!
# Verification of the JupyterLite-Zest bridge protocol

A shallow embedding of the bridge code of this repository:

* `template/bridge.js` — the parent-page session controller: event log
  (`logEvent`), request layer (`sendToExtension`, `handleMessage`), the
  restore handshake (`onExtensionReady`), submission (`doSubmit`) and the
  storage isolation guard.
* `template/bridge-shim.js` (v3) and the v3.1 shim — the child-context
  storage adapter over IndexedDB (`openDatabase`, `withDB`,
  `withTransaction`, `readItem`, `writeItem`, `getAllKeys`, `getAllItems`,
  `restoreFilesToDB`, `checkReady`) and the child message listener.

JavaScript machine behaviour is made explicit: timers are modelled as
events delivered to the handlers they schedule, promise settlement as the
returned `Except` value, and the IndexedDB environment as an association
list of named databases.  Connection lifetimes are tracked as explicit
open/close traces.
-/

namespace ZestBridge

/-! ## Event log (bridge.js `logEvent`, ring buffer) -/

/-- `MAX_EVENTS` from bridge.js: capacity of the event ring buffer. -/
def MAX_EVENTS : Nat := 500

/-- One entry of the bridge event log, `{t, type, data}` in bridge.js.
`kind` embeds the JS field `type`; the payload is kept as an opaque
string. -/
structure LogEntry where
  t : Nat
  kind : String
  payload : String
deriving DecidableEq, Repr

/-- `logEvent` from bridge.js: push the new event, then shift the oldest
entry off the front when the buffer exceeds `MAX_EVENTS`:

```js
_events.push({...});
if (_events.length > MAX_EVENTS) _events.shift();
```
-/
def logEvent (log : List LogEntry) (e : LogEntry) : List LogEntry :=
  let l := log ++ [e]
  if MAX_EVENTS < l.length then l.tail else l

/-- A sequence of `logEvent` appends, oldest first. -/
def logEvents (log : List LogEntry) (es : List LogEntry) : List LogEntry :=
  es.foldl logEvent log

/-! ## Data model: documents, file artifacts, message payloads -/

/-- A notebook cell; `execution_count` is `null`/absent when never run. -/
structure Cell where
  source : String
  execution_count : Option Nat
deriving DecidableEq, Repr

/-- The Document: a cell-oriented notebook. -/
structure Notebook where
  cells : List Cell
deriving DecidableEq, Repr

/-- A value held in the runtime's store or carried as file content.
`vnull` is JavaScript `null`; `vtext` a string; `vjson` an opaque
structured JSON value kept as its serialisation; `vnotebook` the parsed
notebook JSON the runtime stores for the Document entry. -/
inductive StoreContent
  | vnull
  | vtext (s : String)
  | vjson (s : String)
  | vnotebook (nb : Notebook)
deriving DecidableEq, Repr

/-- A secondary file exchanged between parent and child
(`{path, name, type, format, content, mimetype}`); all fields except
`path` and `content` may be absent in a message payload. -/
structure FileArtifact where
  path : String
  name : Option String
  ftype : Option String
  format : Option String
  content : StoreContent
  mimetype : Option String
deriving DecidableEq, Repr

/-- JavaScript `a || b` for an optional string: `null`, `undefined` and
`""` are falsy. -/
def jsOrStr (o : Option String) (d : String) : String :=
  match o with
  | some s => if s = "" then d else s
  | none => d

/-- JavaScript `a || b` for an optional number: `null`, `undefined` and
`0` are falsy. -/
def jsOrNat (o : Option Nat) (d : Nat) : Nat :=
  match o with
  | some n => if n = 0 then d else n
  | none => d

/-- The free-form `data` payload of a message envelope; only the fields
the handlers read are modelled, each absent by default.  `payload` stands
for the rest of the object (logged verbatim, never inspected). -/
structure MsgData where
  notebook : Option Notebook := none
  files : Option (List FileArtifact) := none
  executionCount : Option Nat := none
  isDirty : Bool := false
  success : Option Bool := none
  count : Option Nat := none
  payload : String := ""
deriving DecidableEq, Repr

/-- The window a `message` event originated from (`event.source`). -/
inductive MsgSource
  | parentPage
  | childFrame
  | other
deriving DecidableEq, Repr

/-- A message envelope as received:
`{ type, action, requestId?, data }`.  Request ids (`"req_" + n` in JS)
are modelled by their counter value. -/
structure InMsg where
  tag : String
  action : String
  requestId : Option Nat := none
  data : MsgData := {}
deriving DecidableEq, Repr

/-! ## Parent context (bridge.js): state, request layer, handshake -/

/-- `SAVE_DEBOUNCE_MS` from bridge.js. -/
def SAVE_DEBOUNCE_MS : Nat := 3000

/-- `AUTO_SAVE_INTERVAL_MS` from bridge.js. -/
def AUTO_SAVE_INTERVAL_MS : Nat := 30000

/-- The fixed per-request timeout of `sendToExtension` (10 s). -/
def REQUEST_TIMEOUT_MS : Nat := 10000

/-- The mutable state of the bridge.js IIFE: `_state` (the SessionState
aggregate), the handshake and request-layer module variables, and the
promise outcomes observable by callers of `sendToExtension`
(`resolved` / `rejected` record each settled request). -/
structure ParentState where
  notebook : Option Notebook
  files : List FileArtifact
  timeSpent : Nat
  interactions : Nat
  cellExecutions : Nat
  lastSaved : Option Nat
  submitted : Bool
  isReview : Bool
  stateRestored : Bool
  extensionReady : Bool
  requestId : Nat
  pending : List Nat
  resolved : List (Nat × MsgData)
  rejected : List (Nat × String)
  events : List LogEntry
  autosaveOn : Bool
deriving DecidableEq, Repr

/-- `sendToExtension` (bridge.js): allocate the next request id, register
a pending-request record, and post the envelope.  Returns the updated
state and the allocated id; the caller's promise later settles through
`handleMessage` (reply) or `fireTimeout` (the 10 s timer). -/
def sendToExtension (s : ParentState) : ParentState × Nat :=
  let id := s.requestId + 1
  ({ s with requestId := id, pending := id :: s.pending }, id)

/-- The 10 s timer registered by `sendToExtension`: when it fires (which
happens exactly when the reply has not already resolved the request and
cleared the timer, i.e. the id is still pending) it deletes the
pending-request record and rejects the promise with the timeout error. -/
def fireTimeout (s : ParentState) (id : Nat) (action : String) : ParentState :=
  if id ∈ s.pending then
    { s with pending := s.pending.filter (fun j => j != id),
             rejected := (id, "Extension request timeout: " ++ action) :: s.rejected }
  else s

/-- Externally visible actions of the parent handlers, in execution
order: flag writes, outgoing restore requests, timer starts. -/
inductive PAction
  | setRestoredFlag
  | sendLoadNotebook
  | sendLoadFiles
  | startAutoSave
  | debounceSave
deriving DecidableEq, Repr

/-- `onExtensionReady` (bridge.js): the restore-on-ready handshake.
If `_stateRestored` is already set, only start auto-save (unless in
review).  Otherwise, with a saved notebook: set `_stateRestored` *before*
sending `loadNotebook` (and `loadFiles` when files are present); auto-save
is deferred to the post-reload `ready`.  With no saved notebook: restore
files if any and start auto-save immediately.  Each outgoing request goes
through `sendToExtension`; the returned trace lists the actions in the
order the code performs them. -/
def onExtensionReady (now : Nat) (s0 : ParentState) : ParentState × List PAction :=
  let s := { s0 with events := logEvent s0.events ⟨now, "extension_ready", ""⟩ }
  if s.stateRestored then
    if s.isReview then (s, [])
    else ({ s with autosaveOn := true }, [.startAutoSave])
  else
    match s.notebook with
    | some _ =>
      let s1 := { s with stateRestored := true }
      let s2 := (sendToExtension s1).1
      if s2.files.isEmpty then
        (s2, [.setRestoredFlag, .sendLoadNotebook])
      else
        let s3 := (sendToExtension s2).1
        (s3, [.setRestoredFlag, .sendLoadNotebook, .sendLoadFiles])
    | none =>
      let s1 := if s.files.isEmpty then s else (sendToExtension s).1
      let acts := if s.files.isEmpty then [] else [PAction.sendLoadFiles]
      if s.isReview then (s1, acts)
      else ({ s1 with autosaveOn := true }, acts ++ [.startAutoSave])

/-- The reply actions the child sends in response to parent requests
(one per parent→child action). -/
def replyActions : List String :=
  ["notebookContent", "notebookLoaded", "saved", "status",
   "runAllComplete", "outputsCleared", "filesContent", "filesLoaded"]

/-- The `switch (msg.action)` of `handleMessage` (bridge.js), reached for
messages that did not match a pending request. -/
def dispatchAction (now : Nat) (m : InMsg) (s : ParentState) :
    ParentState × List PAction :=
  if m.action = "ready" then
    onExtensionReady now { s with extensionReady := true }
  else if m.action = "cellExecutionScheduled" then
    ({ s with events := logEvent s.events ⟨now, "cell_exec_scheduled", m.data.payload⟩,
              interactions := s.interactions + 1 }, [])
  else if m.action = "cellExecuted" then
    ({ s with events := logEvent s.events ⟨now, "cell_executed", m.data.payload⟩,
              cellExecutions := jsOrNat m.data.executionCount (s.cellExecutions + 1),
              interactions := s.interactions + 1 }, [.debounceSave])
  else if m.action = "notebookOpened" then
    ({ s with events := logEvent s.events ⟨now, "notebook_opened", m.data.payload⟩ }, [])
  else if m.action = "dirty" then
    (if m.data.isDirty then { s with interactions := s.interactions + 1 } else s, [])
  else
    -- `kernelStatus` only updates a status badge; unknown actions are ignored
    (s, [])

/-- `handleMessage` (bridge.js): drop events whose source is not the
JupyterLite iframe's window, then drop envelopes without the
`zest-jupyter` discriminator; resolve a matching pending request with the
reply data, and otherwise dispatch on the action. -/
def handleMessage (now : Nat) (src : MsgSource) (m : Option InMsg)
    (s : ParentState) : ParentState × List PAction :=
  if src ≠ MsgSource.childFrame then (s, [])
  else
    match m with
    | none => (s, [])
    | some msg =>
      if msg.tag ≠ "zest-jupyter" then (s, [])
      else
        match msg.requestId with
        | some id =>
          if id ∈ s.pending then
            ({ s with pending := s.pending.filter (fun j => j != id),
                      resolved := (id, msg.data) :: s.resolved }, [])
          else dispatchAction now msg s
        | none => dispatchAction now msg s

/-- Number of `loadNotebook` restore requests in an action trace. -/
def countLoadNotebook (t : List PAction) : Nat :=
  (t.filter (fun a => a == PAction.sendLoadNotebook)).length

/-- A concrete parent state: fresh session, one saved notebook, no files,
student mode. -/
def sampleParent : ParentState where
  notebook := some ⟨[⟨"print(1)", some 1⟩]⟩
  files := []
  timeSpent := 0
  interactions := 0
  cellExecutions := 0
  lastSaved := none
  submitted := false
  isReview := false
  stateRestored := false
  extensionReady := false
  requestId := 0
  pending := []
  resolved := []
  rejected := []
  events := []
  autosaveOn := false

/-! ## Submission (bridge.js `doSubmit`) -/

/-- Outcome of `Zest.submitWork`: the server's `{success, error?}` reply,
or a rejection of the call itself. -/
inductive SubmitResult
  | ok
  | serverFailure (err : String)
  | callRejected (err : String)
deriving DecidableEq, Repr

/-- The submit control (`#btn-submit`). -/
structure SubmitUI where
  enabled : Bool
  label : String
deriving DecidableEq, Repr

/-- The argument `doSubmit` receives from `handleSubmission`: notebook
and files fetched from the child (absent when those requests failed and
no fallback existed), plus derived counts. -/
structure SubmitPayload where
  notebook : Option Notebook := none
  files : Option (List FileArtifact) := none
  cellCount : Nat := 0
  executionCount : Nat := 0
deriving DecidableEq, Repr

/-- Everything observable once `doSubmit` settles: the module state, the
submit control, and the value of the `submitted` flag passed to
`Zest.saveState` — the state persisted to the server *before*
`Zest.submitWork` is invoked. -/
structure SubmitOutcome where
  state : ParentState
  ui : SubmitUI
  persistedSubmitted : Bool
deriving DecidableEq, Repr

/-- `doSubmit` (bridge.js): merge the fetched notebook/files into
`_state`, set `_state.submitted = true`, log the submission event,
persist the state via `Zest.saveState`, then call `Zest.submitWork`.  On
a success reply the control shows "Submitted" and stays disabled; on a
failure reply or a rejected call the control is re-enabled with label
"Retry Submit".  Neither failure handler touches `_state.submitted`. -/
def doSubmit (now : Nat) (s : ParentState) (data : SubmitPayload)
    (result : SubmitResult) : SubmitOutcome :=
  let notebook := match data.notebook with
    | some nb => some nb
    | none => s.notebook
  let files := match data.files with
    | some fs => fs
    | none => s.files
  let s1 := { s with
    notebook := notebook,
    files := files,
    submitted := true,
    lastSaved := some now,
    events := logEvent s.events ⟨now, "submission", ""⟩ }
  -- Zest.saveState(JSON.parse(JSON.stringify(_state))) happens here,
  -- before submitWork: the persisted snapshot carries s1.submitted
  let persisted := s1.submitted
  match result with
  | .ok => ⟨s1, ⟨false, "Submitted"⟩, persisted⟩
  | .serverFailure _ => ⟨s1, ⟨true, "Retry Submit"⟩, persisted⟩
  | .callRejected _ => ⟨s1, ⟨true, "Retry Submit"⟩, persisted⟩

/-- `init()` (bridge.js, student mode): adopt the server-held state when
present, then always clear the submission flag
(`_state.submitted = false`) so resubmission is permitted. -/
def initLoadedState (saved : Option ParentState) (fresh : ParentState) :
    ParentState :=
  let s := match saved with
    | some st => st
    | none => fresh
  { s with submitted := false }

/-! ## Child context: the IndexedDB environment and the storage adapter -/

/-- `NOTEBOOK_PATH` from the shim. -/
def NOTEBOOK_PATH : String := "assignment.ipynb"

/-- `FILES_STORE` from the shim. -/
def FILES_STORE : String := "files"

/-- A stored IModel value (`{name, path, last_modified, created, format,
mimetype, content, size, writable, type}`); `itype` embeds the JS field
`type`. -/
structure IModel where
  name : String
  path : String
  last_modified : String
  created : String
  format : String
  mimetype : String
  content : StoreContent
  size : Nat
  writable : Bool
  itype : String
deriving DecidableEq, Repr

/-- One IndexedDB database: schema version, object-store names, and the
contents of the `files` object store (the only one the adapter reads or
writes). -/
structure Database where
  version : Nat
  storeNames : List String
  files : List (String × IModel)
deriving DecidableEq, Repr

/-- The origin's IndexedDB: databases by name (names are unique; lookup
and update act on the first occurrence). -/
abbrev Env := List (String × Database)

/-- `JSON.stringify` length of a content value as the shim computes
`size` (`"null"` has four characters; for a parsed notebook the exact
byte count is immaterial to the bridge, so the serialisation length is
abstracted as the total source length of its cells). -/
def contentSize (c : StoreContent) : Nat :=
  match c with
  | .vtext s => s.length
  | .vjson s => s.length
  | .vnull => 4
  | .vnotebook nb => (nb.cells.map (fun cell => cell.source.length)).sum

/-- `store.put(model, path)` inside one transaction: overwrite by key
(last-writer-wins), appending when the key is new. -/
def putEntry (fs : List (String × IModel)) (k : String) (v : IModel) :
    List (String × IModel) :=
  if fs.any (fun kv => kv.1 == k) then
    fs.map (fun kv => if kv.1 = k then (k, v) else kv)
  else fs ++ [(k, v)]

/-- Replace the (first) database entry named `name`. -/
def updateEnv : Env → String → Database → Env
  | [], _, _ => []
  | nd :: rest, name, db =>
    if nd.1 = name then (name, db) :: rest
    else nd :: updateEnv rest name db

/-- The part of the environment an adapter open must never change: the
set of databases with their versions and object-store (collection)
names. -/
def envShape (env : Env) : List (String × Nat × List String) :=
  env.map (fun nd => (nd.1, nd.2.version, nd.2.storeNames))

/-- `indexedDB.open(name)` without a version: succeeds on an existing
database; on a missing one the platform starts a version-1 upgrade
transaction whose commit would create an empty database — the
`onupgradeneeded` handler decides whether that transaction commits or is
aborted (rolling the creation back). -/
inductive OpenOutcome
  | opened (db : Database)
  | upgrade (envIfCommitted : Env)
deriving Repr

/-- Name lookup in the environment (first occurrence). -/
def envLookup (name : String) : Env → Option Database
  | [] => none
  | nd :: rest => if nd.1 = name then some nd.2 else envLookup name rest

/-- `store.get(key)` / key lookup in the `files` store. -/
def storeGet (k : String) : List (String × IModel) → Option IModel
  | [] => none
  | kv :: rest => if kv.1 = k then some kv.2 else storeGet k rest

/-- The platform's open request against the current environment. -/
def indexedOpen (env : Env) (name : String) : OpenOutcome :=
  match envLookup name env with
  | some db => .opened db
  | none => .upgrade (env ++ [(name, ⟨1, [], []⟩)])

/-- Connection-lifetime events of the adapter. -/
inductive ConnEvent
  | opened (name : String)
  | closed (name : String)
deriving DecidableEq, Repr

/-- A trace consisting only of immediately closed connections: one
`opened n, closed n` pair per listed name. -/
def pairBlocks (names : List String) : List ConnEvent :=
  names.flatMap (fun n => [ConnEvent.opened n, ConnEvent.closed n])

/-- `withDB` (v3.1 shim): open the named database, run the callback on
it, and close the connection before settling — on the success path, the
failure path and the exception path alike.  When the platform signals a
schema upgrade (the database does not exist), abort the upgrade
transaction and reject; no connection is retained.  The callback returns
the updated database together with the operation's settlement.  Returns
the final environment, the settlement, and the connection trace. -/
def withDB (env : Env) (name : String)
    (callback : Database → Database × Except String α) :
    Env × Except String α × List ConnEvent :=
  match indexedOpen env name with
  | .upgrade _ =>
      (env, .error "DB upgrade needed — localforage may be initializing", [])
  | .opened db =>
      let (db2, res) := callback db
      (updateEnv env name db2, res, [.opened name, .closed name])

/-- `withTransaction` (v3.1 shim): open via `withDB`, fail when the
`files` store is missing, else run the operation in a transaction on that
store.  `mode` is `"readonly"` or `"readwrite"` (it does not affect this
sequential model). -/
def withTransaction (mode : String)
    (operation : List (String × IModel) →
      List (String × IModel) × Except String α)
    (env : Env) (name : String) :
    Env × Except String α × List ConnEvent :=
  withDB env name (fun db =>
    if db.storeNames.contains FILES_STORE then
      let (fs, res) := operation db.files
      ({ db with files := fs }, res)
    else (db, .error "No files store in database"))

/-- `tryOpenWithFilesStore` (v3.1 shim): probe one candidate database for
the `files` store, always closing the probing connection; abort the
creation of a missing database. -/
def tryOpenWithFilesStore (env : Env) (name : String) :
    Option String × List ConnEvent :=
  match indexedOpen env name with
  | .upgrade _ => (none, [])
  | .opened db =>
      (if db.storeNames.contains FILES_STORE then some name else none,
       [.opened name, .closed name])

/-- Character-list prefix test. -/
def charPrefix : List Char → List Char → Bool
  | [], _ => true
  | _ :: _, [] => false
  | c :: cs, d :: ds => c == d && charPrefix cs ds

/-- Does `pat` occur in `l` (at any position)? -/
def containsSubAux (pat : List Char) : List Char → Bool
  | [] => charPrefix pat []
  | c :: rest => charPrefix pat (c :: rest) || containsSubAux pat rest

/-- JavaScript `s.indexOf(pat) !== -1`. -/
def strContainsSub (s pat : String) : Bool :=
  containsSubAux pat.data s.data

/-- The candidate loop (`tryNext`) of `discoverDatabaseName`. -/
def tryCandidates (env : Env) : List String → Option String × List ConnEvent
  | [] => (none, [])
  | n :: rest =>
    match tryOpenWithFilesStore env n with
    | (some name, tr) => (some name, tr)
    | (none, tr) =>
      let r2 := tryCandidates env rest
      (r2.1, tr ++ r2.2)

/-- `discoverDatabaseName` (v3.1 shim): return the cached `_dbName` when
present; otherwise enumerate the databases, keep those whose name
contains `"JupyterLite Storage"`, and probe each in turn for the `files`
store. -/
def discoverDatabaseName (env : Env) (cached : Option String) :
    Option String × List ConnEvent :=
  match cached with
  | some n => (some n, [])
  | none =>
      tryCandidates env
        ((env.map Prod.fst).filter (fun n => strContainsSub n "JupyterLite Storage"))

/-- Result of one v3.1 adapter operation: the environment, the cached
database name, the settlement and the connection trace. -/
structure OpResult (α : Type) where
  env : Env
  dbName : Option String
  res : Except String α
  trace : List ConnEvent

/-- `readItem` (v3.1 shim): discover, then `store.get(path)` in a
read-only transaction (`request.result || null`). -/
def readItem (env : Env) (cached : Option String) (path : String) :
    OpResult (Option IModel) :=
  match discoverDatabaseName env cached with
  | (none, tr) => ⟨env, cached, .error "No JupyterLite Storage database found", tr⟩
  | (some name, tr) =>
      let r := withTransaction "readonly"
        (fun fs => (fs, .ok (storeGet path fs))) env name
      ⟨r.1, some name, r.2.1, tr ++ r.2.2⟩

/-- `writeItem` (v3.1 shim): discover, then `store.put(model, path)` in a
read-write transaction. -/
def writeItem (env : Env) (cached : Option String) (path : String)
    (model : IModel) : OpResult Unit :=
  match discoverDatabaseName env cached with
  | (none, tr) => ⟨env, cached, .error "No JupyterLite Storage database found", tr⟩
  | (some name, tr) =>
      let r := withTransaction "readwrite"
        (fun fs => (putEntry fs path model, .ok ())) env name
      ⟨r.1, some name, r.2.1, tr ++ r.2.2⟩

/-- `getAllKeys` (v3.1 shim): discover, then `store.getAllKeys()`. -/
def getAllKeys (env : Env) (cached : Option String) :
    OpResult (List String) :=
  match discoverDatabaseName env cached with
  | (none, tr) => ⟨env, cached, .error "No JupyterLite Storage database found", tr⟩
  | (some name, tr) =>
      let r := withTransaction "readonly"
        (fun fs => (fs, .ok (fs.map Prod.fst))) env name
      ⟨r.1, some name, r.2.1, tr ++ r.2.2⟩

/-- `getAllItems` (v3.1 shim): discover, then iterate a cursor over the
whole store. -/
def getAllItems (env : Env) (cached : Option String) :
    OpResult (List (String × IModel)) :=
  match discoverDatabaseName env cached with
  | (none, tr) => ⟨env, cached, .error "No JupyterLite Storage database found", tr⟩
  | (some name, tr) =>
      let r := withTransaction "readonly"
        (fun fs => (fs, .ok fs)) env name
      ⟨r.1, some name, r.2.1, tr ++ r.2.2⟩

/-! ## The v3 template shim: persistent `_db` connection cache -/

/-- Module state of the template (v3) shim: `_db` (a cached *open*
connection, identified by database name) and the set of connections the
shim currently holds open. -/
structure ShimV3State where
  dbCache : Option String
  openConns : List String
deriving DecidableEq, Repr

/-- `DB_NAME_CANDIDATES` (v3 shim). -/
def DB_NAME_CANDIDATES : List String :=
  ["JupyterLite Storage", "JupyterLite Storage - ./", "JupyterLite Storage - /",
   "JupyterLite Storage - /lab", "JupyterLite Storage - ./lab"]

/-- `openDatabase` (template bridge-shim.js, v3): open `name`; on success
with a `files` store, cache the connection (`_db = db; _dbName = name`)
*without closing it*; on success without the store, close and reject; on
`upgradeneeded`, abort the creation transaction and reject. -/
def openDatabase (env : Env) (st : ShimV3State) (name : String) :
    Env × ShimV3State × Option String × List ConnEvent :=
  match indexedOpen env name with
  | .upgrade _ => (env, st, none, [])
  | .opened db =>
    if db.storeNames.contains FILES_STORE then
      (env, { st with dbCache := some name, openConns := st.openConns ++ [name] },
       some name, [.opened name])
    else (env, st, none, [.opened name, .closed name])

/-- `tryNextCandidate` (v3 shim): probe the fixed candidate list with
`openDatabase`. -/
def tryNextCandidate (env : Env) (st : ShimV3State) :
    List String → Env × ShimV3State × Option String × List ConnEvent
  | [] => (env, st, none, [])
  | n :: rest =>
    match openDatabase env st n with
    | (env2, st2, some name, tr) => (env2, st2, some name, tr)
    | (env2, st2, none, tr) =>
      let r := tryNextCandidate env2 st2 rest
      (r.1, r.2.1, r.2.2.1, tr ++ r.2.2.2)

/-- `discoverDatabase` (v3 shim): open the first enumerated database
whose name contains `"JupyterLite Storage"`, falling back to the fixed
candidate list. -/
def discoverDatabase (env : Env) (st : ShimV3State) :
    Env × ShimV3State × Option String × List ConnEvent :=
  match (env.map Prod.fst).find? (fun n => strContainsSub n "JupyterLite Storage") with
  | some n =>
    match openDatabase env st n with
    | (env2, st2, some name, tr) => (env2, st2, some name, tr)
    | (env2, st2, none, tr) =>
      let r := tryNextCandidate env2 st2 DB_NAME_CANDIDATES
      (r.1, r.2.1, r.2.2.1, tr ++ r.2.2.2)
  | none => tryNextCandidate env st DB_NAME_CANDIDATES

/-- `getDB` (v3 shim): return the cached connection when present,
otherwise discover (and cache) one. -/
def getDB (env : Env) (st : ShimV3State) :
    Env × ShimV3State × Option String × List ConnEvent :=
  match st.dbCache with
  | some n => (env, st, some n, [])
  | none => discoverDatabase env st

/-- `readItem` of the v3 shim: `getDB`, then a read transaction on the
(still cached, still open) connection; nothing closes it afterwards. -/
def readItemV3 (env : Env) (st : ShimV3State) (path : String) :
    Env × ShimV3State × Except String (Option IModel) × List ConnEvent :=
  match getDB env st with
  | (env2, st2, none, tr) =>
      (env2, st2, .error "Could not find JupyterLite IndexedDB database", tr)
  | (env2, st2, some name, tr) =>
      match envLookup name env2 with
      | some db => (env2, st2, .ok (storeGet path db.files), tr)
      | none => (env2, st2, .error ("Failed to read: " ++ path), tr)

/-! ## Paths and the restore write sequence (v3.1 `restoreFilesToDB`) -/

/-- JavaScript `path.split('/')`, at character level (splits on every
slash; `""` splits to `[""]`). -/
def splitSegs : List Char → List (List Char)
  | [] => [[]]
  | c :: rest =>
    let r := splitSegs rest
    if c = '/' then [] :: r
    else (c :: r.headD []) :: r.tail

/-- `Array.prototype.join('/')`, at character level. -/
def joinSegs : List (List Char) → List Char
  | [] => []
  | [seg] => seg
  | seg :: rest => seg ++ '/' :: joinSegs rest

/-- `path.split('/')`. -/
def splitPath (p : String) : List String :=
  (splitSegs p.data).map String.mk

/-- `parts.join('/')`. -/
def joinPath (parts : List String) : String :=
  String.mk (joinSegs (parts.map String.data))

/-- One `store.put` of the restore sequence: key and stored value. -/
structure WriteOp where
  key : String
  value : IModel
deriving DecidableEq, Repr

/-- The directory entry `restoreFilesToDB` writes for the parent path
`dirPath` (zero content: `content: null, size: 0, type: 'directory'`). -/
def dirEntry (now : String) (dirPath dirName : String) : IModel :=
  ⟨dirName, dirPath, now, now, "json", "", .vnull, 0, true, "directory"⟩

/-- The leaf entry `restoreFilesToDB` writes for the file itself. -/
def leafEntry (now : String) (f : FileArtifact) : IModel :=
  ⟨jsOrStr f.name ((splitPath f.path).getLastD ""),
   f.path, now, now, jsOrStr f.format "text", jsOrStr f.mimetype "",
   f.content, contentSize f.content, true, jsOrStr f.ftype "file"⟩

/-- The ordered write trace of one file's restore (v3.1
`restoreFilesToDB` loop body): when the path has parent segments, one
directory entry per `parts.slice(0, d)` for `d = 1 … parts.length − 1`,
in that order, then the leaf entry at `f.path`. -/
def restoreWritesForFile (now : String) (f : FileArtifact) : List WriteOp :=
  let parts := splitPath f.path
  let dirs :=
    if parts.length > 1 then
      (List.range (parts.length - 1)).map (fun i =>
        WriteOp.mk (joinPath (parts.take (i + 1)))
          (dirEntry now (joinPath (parts.take (i + 1))) (parts.getD i "")))
    else []
  dirs ++ [⟨f.path, leafEntry now f⟩]

/-- The full sequential write chain of v3.1 `restoreFilesToDB`: files in
order, each file's directory entries before its leaf (the promise chain
`chain = chain.then(...)` serialises the writes in exactly this order);
an absent or empty list produces no writes at all. -/
def restoreFilesToDB (now : String) (files : List FileArtifact) : List WriteOp :=
  files.flatMap (restoreWritesForFile now)

/-! ## Child context: message listener and readiness signal -/

/-- A message the child posts to the wrapper
(`sendToWrapper(action, data, requestId)`); only the payload fields some
reply carries are modelled, absent by default. -/
structure OutMsg where
  action : String
  requestId : Option Nat := none
  success : Option Bool := none
  count : Option Nat := none
  err : Option String := none
  notebook : Option StoreContent := none
  files : Option (List FileArtifact) := none
  cellCount : Option Nat := none
  executionCount : Option Nat := none
  hasNotebook : Option Bool := none
  appReady : Option Bool := none
  version : Option String := none
  capabilities : List String := []
  hasWidget : Option Bool := none
  dbName : Option String := none
deriving DecidableEq, Repr

/-- The child shim's mutable view: the cached `_dbName` and the shared
IndexedDB environment it operates on. -/
structure ChildCtx where
  dbName : Option String
  env : Env
deriving DecidableEq, Repr

/-- JavaScript truthiness of a stored content value (`null` and `""` are
falsy, objects truthy). -/
def contentTruthy (c : StoreContent) : Bool :=
  match c with
  | .vnull => false
  | .vtext s => s != ""
  | .vjson _ => true
  | .vnotebook _ => true

/-- The cells of a stored notebook content value, when it is one. -/
def contentCells (c : StoreContent) : Option Notebook :=
  match c with
  | .vnotebook nb => some nb
  | _ => none

/-- `countExecutions` (shim): cells whose `execution_count` is truthy. -/
def countExecutions (nb : Option Notebook) : Nat :=
  match nb with
  | none => 0
  | some n => (n.cells.filter (fun cell => jsOrNat cell.execution_count 0 != 0)).length

/-- `getNotebookFromDB` (v3.1): `readItem(NOTEBOOK_PATH)`, then
`model.content || null`. -/
def getNotebookFromDB (c : ChildCtx) :
    ChildCtx × Except String (Option StoreContent) :=
  let r := readItem c.env c.dbName NOTEBOOK_PATH
  (⟨r.dbName, r.env⟩,
   match r.res with
   | .error e => .error e
   | .ok none => .ok none
   | .ok (some model) =>
       .ok (if contentTruthy model.content then some model.content else none))

/-- `saveNotebookToDB` (v3.1): write the notebook IModel at
`NOTEBOOK_PATH`. -/
def saveNotebookToDB (now : String) (c : ChildCtx) (nb : Notebook) :
    ChildCtx × Except String Unit :=
  let content := StoreContent.vnotebook nb
  let model : IModel :=
    ⟨NOTEBOOK_PATH, NOTEBOOK_PATH, now, now, "json", "application/json",
     content, contentSize content, true, "notebook"⟩
  let r := writeItem c.env c.dbName NOTEBOOK_PATH model
  (⟨r.dbName, r.env⟩, r.res)

/-- The entry filter of `getAllFilesFromDB` (v3.1): skip the notebook,
directories, checkpoint and virtual-document housekeeping entries, and
entries with null content. -/
def fileFilter (kv : String × IModel) : Bool :=
  !(kv.1 == NOTEBOOK_PATH) && !(kv.2.itype == "directory")
    && !(strContainsSub kv.1 ".ipynb_checkpoints")
    && !(strContainsSub kv.1 ".virtual_documents")
    && !(kv.2.content == StoreContent.vnull)

/-- The artifact `getAllFilesFromDB` builds from a surviving entry. -/
def toArtifact (kv : String × IModel) : FileArtifact :=
  ⟨jsOrStr (some kv.2.path) kv.1,
   some (jsOrStr (some kv.2.name) ((splitPath kv.1).getLastD "")),
   some (jsOrStr (some kv.2.itype) "file"),
   some (jsOrStr (some kv.2.format) "text"),
   kv.2.content,
   some (jsOrStr (some kv.2.mimetype) "")⟩

/-- `getAllFilesFromDB` (v3.1): enumerate the store, filter, map. -/
def getAllFilesFromDB (c : ChildCtx) :
    ChildCtx × Except String (List FileArtifact) :=
  let r := getAllItems c.env c.dbName
  (⟨r.dbName, r.env⟩,
   match r.res with
   | .error e => .error e
   | .ok items => .ok ((items.filter fileFilter).map toArtifact))

/-- Run restore writes sequentially through `writeItem` (the v3.1
promise chain): the first rejection aborts the remainder. -/
def runWrites : ChildCtx → List WriteOp → ChildCtx × Except String Unit
  | c, [] => (c, .ok ())
  | c, w :: rest =>
    let r := writeItem c.env c.dbName w.key w.value
    match r.res with
    | .ok _ => runWrites ⟨r.dbName, r.env⟩ rest
    | .error e => (⟨r.dbName, r.env⟩, .error e)

/-- The child message listener (v3.1 shim).  The listener reads only
`event.data` — the event's source window is never consulted, which is
why the `src` argument is unused — and drops envelopes lacking the
`zest-jupyter` discriminator.  Timer delays (the settle intervals before
reads, the delayed `location.reload`) are collapsed: the result is the
state once every scheduled callback has run, the replies posted, and
whether a reload of the child context was scheduled. -/
def childHandleMessage (now : String) (src : MsgSource) (m : Option InMsg)
    (c : ChildCtx) : ChildCtx × List OutMsg × Bool :=
  match m with
  | none => (c, [], false)
  | some msg =>
    if msg.tag ≠ "zest-jupyter" then (c, [], false)
    else if msg.action = "getNotebook" then
      -- triggerSave(); setTimeout(1500); then read from the store
      let r := getNotebookFromDB c
      match r.2 with
      | .ok nbOpt =>
        (r.1, [{ action := "notebookContent", requestId := msg.requestId,
                 notebook := nbOpt,
                 cellCount := some (match nbOpt with
                   | some content => match contentCells content with
                     | some nb => nb.cells.length
                     | none => 0
                   | none => 0),
                 executionCount := some (countExecutions
                   (nbOpt.bind contentCells)) }], false)
      | .error e =>
        (r.1, [{ action := "notebookContent", requestId := msg.requestId,
                 notebook := none, err := some e }], false)
    else if msg.action = "loadNotebook" then
      match msg.data.notebook with
      | none =>
        (c, [{ action := "notebookLoaded", requestId := msg.requestId,
               success := some false, err := some "No notebook data" }], false)
      | some nb =>
        let r := saveNotebookToDB now c nb
        match r.2 with
        | .ok _ =>
          (r.1, [{ action := "notebookLoaded", requestId := msg.requestId,
                   success := some true }], true)
        | .error e =>
          (r.1, [{ action := "notebookLoaded", requestId := msg.requestId,
                   success := some false, err := some e }], false)
    else if msg.action = "save" then
      let r := getNotebookFromDB c
      match r.2 with
      | .ok nbOpt =>
        (r.1, [{ action := "saved", requestId := msg.requestId,
                 notebook := nbOpt, success := some true }], false)
      | .error e =>
        (r.1, [{ action := "saved", requestId := msg.requestId,
                 success := some false, err := some e }], false)
    else if msg.action = "getStatus" then
      let r := getNotebookFromDB c
      match r.2 with
      | .ok nbOpt =>
        (r.1, [{ action := "status", requestId := msg.requestId,
                 hasNotebook := some nbOpt.isSome,
                 appReady := some r.1.dbName.isSome,
                 dbName := r.1.dbName }], false)
      | .error _ =>
        (r.1, [{ action := "status", requestId := msg.requestId,
                 hasNotebook := some false, appReady := some false,
                 dbName := none }], false)
    else if msg.action = "runAll" then
      (c, [{ action := "runAllComplete", requestId := msg.requestId,
             success := some true }], false)
    else if msg.action = "clearOutputs" then
      (c, [{ action := "outputsCleared", requestId := msg.requestId,
             success := some true }], false)
    else if msg.action = "getFiles" then
      let r := getAllFilesFromDB c
      match r.2 with
      | .ok fs =>
        (r.1, [{ action := "filesContent", requestId := msg.requestId,
                 files := some fs, count := some fs.length }], false)
      | .error e =>
        (r.1, [{ action := "filesContent", requestId := msg.requestId,
                 files := some [], err := some e }], false)
    else if msg.action = "loadFiles" then
      match msg.data.files with
      | none =>
        (c, [{ action := "filesLoaded", requestId := msg.requestId,
               success := some true, count := some 0 }], false)
      | some fs =>
        if fs.length = 0 then
          (c, [{ action := "filesLoaded", requestId := msg.requestId,
                 success := some true, count := some 0 }], false)
        else
          let r := runWrites c (restoreFilesToDB now fs)
          match r.2 with
          | .ok _ =>
            (r.1, [{ action := "filesLoaded", requestId := msg.requestId,
                     success := some true, count := some fs.length }], false)
          | .error e =>
            (r.1, [{ action := "filesLoaded", requestId := msg.requestId,
                     success := some false, err := some e }], false)
    else (c, [], false)

/-- The shim's readiness module state (`_ready`, `_dbName`). -/
structure ShimReadyState where
  ready : Bool
  dbName : Option String
deriving DecidableEq, Repr

/-- The discovery retry interval of `checkReady` (2000 ms). -/
def DISCOVERY_RETRY_MS : Nat := 2000

/-- The capability list carried by the `ready` notification (v3.1). -/
def shimCapabilities : List String :=
  ["getNotebook", "loadNotebook", "save", "getStatus",
   "runAll", "clearOutputs", "getFiles", "loadFiles"]

/-- One invocation of `checkReady` (v3.1) against the environment as of
that attempt.  Failed discovery: schedule one retry in
`DISCOVERY_RETRY_MS` (third component `true`), emit nothing.  Successful
discovery: if `_ready` is not yet set, set it and emit the single
unsolicited `ready` notification — version, capability list, whether a
notebook with content is present (`hasWidget`), and the resolved store
identity (`dbName`); the notebook probe failing still emits exactly one
`ready` (with `hasWidget: false`).  No retry is scheduled after
success. -/
def checkReadyStep (env : Env) (s : ShimReadyState) :
    ShimReadyState × List OutMsg × Bool :=
  match (discoverDatabaseName env s.dbName).1 with
  | none => (s, [], true)
  | some name =>
    if s.ready then ({ s with dbName := some name }, [], false)
    else
      let r := readItem env (some name) NOTEBOOK_PATH
      let hasNb := match r.res with
        | .ok (some model) => contentTruthy model.content
        | _ => false
      (⟨true, some name⟩,
       [{ action := "ready", version := some "3.1.0-indexeddb",
          capabilities := shimCapabilities,
          hasWidget := some hasNb, dbName := some name }], false)

/-- A child-context lifetime of `checkReady`: one invocation per element
of `envs` (the environment as of each attempt); a further invocation
happens only while a retry is scheduled. -/
def checkReadyRun (envs : List Env) (s : ShimReadyState) :
    ShimReadyState × List OutMsg :=
  match envs with
  | [] => (s, [])
  | env :: rest =>
    let r := checkReadyStep env s
    if r.2.2 then
      let r2 := checkReadyRun rest r.1
      (r2.1, r.2.1 ++ r2.2)
    else (r.1, r.2.1)

/-- A populated environment: the runtime's store exists at version 5 with
its three localforage stores and holds the notebook. -/
def sampleModel : IModel :=
  ⟨"assignment.ipynb", "assignment.ipynb", "t0", "t0", "json",
   "application/json", .vjson "nb", 2, true, "notebook"⟩

/-- Sample environment used by concrete runs. -/
def sampleEnv : Env :=
  [("JupyterLite Storage",
    ⟨5, ["files", "counters", "checkpoints"], [(NOTEBOOK_PATH, sampleModel)]⟩)]

theorem logEvent_of_lt (log : List LogEntry) (e : LogEntry)
    (h : log.length < MAX_EVENTS) : logEvent log e = log ++ [e] := by
  have hc : ¬ MAX_EVENTS < (log ++ [e]).length := by
    simp only [List.length_append, List.length_cons, List.length_nil]
    omega
  unfold logEvent
  rw [if_neg hc]

theorem logEvent_of_full (log : List LogEntry) (e : LogEntry)
    (h : MAX_EVENTS ≤ log.length) : logEvent log e = (log ++ [e]).drop 1 := by
  have hc : MAX_EVENTS < (log ++ [e]).length := by
    simp only [List.length_append, List.length_cons, List.length_nil]
    omega
  unfold logEvent
  rw [if_pos hc, List.drop_one]

theorem length_logEvent_le (log : List LogEntry) (e : LogEntry)
    (h : log.length ≤ MAX_EVENTS) : (logEvent log e).length ≤ MAX_EVENTS := by
  rcases Nat.lt_or_ge log.length MAX_EVENTS with hlt | hge
  · rw [logEvent_of_lt log e hlt]
    simp only [List.length_append, List.length_cons, List.length_nil]
    omega
  · rw [logEvent_of_full log e hge]
    simp only [List.length_drop, List.length_append, List.length_cons, List.length_nil]
    omega

theorem logEvents_eq_drop (es : List LogEntry) :
    ∀ log : List LogEntry, log.length ≤ MAX_EVENTS →
      logEvents log es = (log ++ es).drop (log.length + es.length - MAX_EVENTS) := by
  induction es with
  | nil =>
    intro log hlog
    simp only [logEvents, List.foldl_nil, List.append_nil, List.length_nil,
      Nat.add_zero]
    rw [Nat.sub_eq_zero_of_le hlog, List.drop_zero]
  | cons e es ih =>
    intro log hlog
    have hstep : logEvents log (e :: es) = logEvents (logEvent log e) es := rfl
    rw [hstep]
    rcases Nat.lt_or_ge log.length MAX_EVENTS with hlt | hge
    · have h1 : (log ++ [e]).length ≤ MAX_EVENTS := by
        simp only [List.length_append, List.length_cons, List.length_nil]
        omega
      have harith : (log ++ [e]).length + es.length - MAX_EVENTS
          = log.length + (e :: es).length - MAX_EVENTS := by
        simp only [List.length_append, List.length_cons, List.length_nil]
        omega
      rw [logEvent_of_lt log e hlt, ih (log ++ [e]) h1, harith,
        List.append_assoc, List.singleton_append]
    · have h1 : ((log ++ [e]).drop 1).length ≤ MAX_EVENTS := by
        simp only [List.length_drop, List.length_append, List.length_cons, List.length_nil]
        omega
      rw [logEvent_of_full log e hge, ih _ h1]
      have hlen1 : 1 ≤ (log ++ [e]).length := by
        simp only [List.length_append, List.length_cons, List.length_nil]
        omega
      have hdropapp : (log ++ [e]).drop 1 ++ es = (log ++ [e] ++ es).drop 1 :=
        (List.drop_append_of_le_length hlen1).symm
      rw [hdropapp, List.drop_drop]
      have harith : 1 + (((log ++ [e]).drop 1).length + es.length - MAX_EVENTS)
          = log.length + (e :: es).length - MAX_EVENTS := by
        simp only [List.length_drop, List.length_append, List.length_cons,
          List.length_nil]
        omega
      rw [harith, List.append_assoc, List.singleton_append]

/-- **C6.** The event log is a fixed-capacity FIFO ring buffer of capacity
500: appending `MAX_EVENTS + 1 = 501` events to the empty log leaves exactly
the last 500 in append order (the earliest event is evicted and the
survivors keep their relative order, being literally the suffix `es.drop 1`),
and a single append never grows a within-capacity log past 500 entries. -/
theorem C6_event_log_ring_buffer (es : List LogEntry)
    (hlen : es.length = MAX_EVENTS + 1)
    (log : List LogEntry) (e : LogEntry) (hlog : log.length ≤ MAX_EVENTS) :
    logEvents [] es = es.drop 1 ∧
    (logEvents [] es).length = MAX_EVENTS ∧
    (logEvent log e).length ≤ MAX_EVENTS := by
  have hnil : ([] : List LogEntry).length ≤ MAX_EVENTS := by
    simp only [List.length_nil]
    omega
  have h2 : ([] : List LogEntry).length + es.length - MAX_EVENTS = 1 := by
    simp only [List.length_nil, hlen]
    omega
  have hmain : logEvents [] es = es.drop 1 := by
    rw [logEvents_eq_drop es [] hnil, h2, List.nil_append]
  refine ⟨hmain, ?_, length_logEvent_le log e hlog⟩
  rw [hmain]
  simp only [List.length_drop, hlen]
  omega

/-- Witness for `C6_event_log_ring_buffer` on a concrete run of 501
appends. -/
theorem C6_event_log_ring_buffer_witness :
    logEvents [] (List.replicate (MAX_EVENTS + 1) ⟨0, "cell_executed", ""⟩) =
      (List.replicate (MAX_EVENTS + 1)
        (⟨0, "cell_executed", ""⟩ : LogEntry)).drop 1 ∧
    (logEvents []
      (List.replicate (MAX_EVENTS + 1) ⟨0, "cell_executed", ""⟩)).length =
      MAX_EVENTS ∧
    (logEvent [] ⟨0, "session_start", ""⟩).length ≤ MAX_EVENTS :=
  C6_event_log_ring_buffer _ (by simp) [] ⟨0, "session_start", ""⟩ (by simp)

theorem onExtensionReady_of_restored (now : Nat) (s : ParentState)
    (h : s.stateRestored = true) :
    countLoadNotebook (onExtensionReady now s).2 = 0 ∧
    (onExtensionReady now s).1.stateRestored = true ∧
    (s.isReview = false → PAction.startAutoSave ∈ (onExtensionReady now s).2 ∧
      (onExtensionReady now s).1.autosaveOn = true) := by
  by_cases hr : s.isReview <;>
    simp [onExtensionReady, h, hr, countLoadNotebook]

theorem onExtensionReady_first (now : Nat) (s : ParentState) (nb : Notebook)
    (hflag : s.stateRestored = false) (hnb : s.notebook = some nb) :
    (∃ rest, (onExtensionReady now s).2 =
      PAction.setRestoredFlag :: PAction.sendLoadNotebook :: rest) ∧
    countLoadNotebook (onExtensionReady now s).2 = 1 ∧
    (onExtensionReady now s).1.stateRestored = true ∧
    (onExtensionReady now s).1.isReview = s.isReview := by
  by_cases hf : s.files.isEmpty <;>
    simp [onExtensionReady, hflag, hnb, hf, sendToExtension, countLoadNotebook]

/-- **C1.** Starting from `AwaitingReady` (restoration flag unset) with a
stored notebook, in student mode: the first `ready` issues exactly one
`loadNotebook` restore, with the restoration flag set before the restore
request is sent (the trace begins `setRestoredFlag, sendLoadNotebook`);
the resulting state has the flag set.  The second `ready` (after the
reload forced by `loadNotebook`) issues no `loadNotebook` and starts
auto-save (`Steady`).  Moreover from *any* state with the flag set, a
`ready` never issues a `loadNotebook` and keeps the flag set, so no third
restore is ever sent and the ready→loadNotebook→reload→ready cycle
terminates after the second `ready`. -/
theorem C1_restore_handshake (now1 now2 : Nat) (s0 : ParentState) (nb : Notebook)
    (hflag : s0.stateRestored = false)
    (hnb : s0.notebook = some nb)
    (hrev : s0.isReview = false) :
    countLoadNotebook (onExtensionReady now1 s0).2 = 1 ∧
    (∃ rest, (onExtensionReady now1 s0).2 =
      PAction.setRestoredFlag :: PAction.sendLoadNotebook :: rest) ∧
    (onExtensionReady now1 s0).1.stateRestored = true ∧
    countLoadNotebook (onExtensionReady now2 (onExtensionReady now1 s0).1).2 = 0 ∧
    PAction.startAutoSave ∈ (onExtensionReady now2 (onExtensionReady now1 s0).1).2 ∧
    (onExtensionReady now2 (onExtensionReady now1 s0).1).1.autosaveOn = true ∧
    (∀ now s, s.stateRestored = true →
      countLoadNotebook (onExtensionReady now s).2 = 0 ∧
      (onExtensionReady now s).1.stateRestored = true) := by
  obtain ⟨hex, hcnt, hflag1, hrev1⟩ := onExtensionReady_first now1 s0 nb hflag hnb
  obtain ⟨hcnt2, hflag2, himp⟩ :=
    onExtensionReady_of_restored now2 (onExtensionReady now1 s0).1 hflag1
  obtain ⟨hmem, hauto⟩ := himp (by rw [hrev1, hrev])
  exact ⟨hcnt, hex, hflag1, hcnt2, hmem, hauto,
    fun now s h => ⟨(onExtensionReady_of_restored now s h).1,
      (onExtensionReady_of_restored now s h).2.1⟩⟩

/-- Witness for `C1_restore_handshake`: a concrete two-`ready` run from a
fresh student session holding a saved notebook. -/
theorem C1_restore_handshake_witness :
    countLoadNotebook (onExtensionReady 10 sampleParent).2 = 1 ∧
    (∃ rest, (onExtensionReady 10 sampleParent).2 =
      PAction.setRestoredFlag :: PAction.sendLoadNotebook :: rest) ∧
    (onExtensionReady 10 sampleParent).1.stateRestored = true ∧
    countLoadNotebook (onExtensionReady 20 (onExtensionReady 10 sampleParent).1).2 = 0 ∧
    PAction.startAutoSave ∈ (onExtensionReady 20 (onExtensionReady 10 sampleParent).1).2 ∧
    (onExtensionReady 20 (onExtensionReady 10 sampleParent).1).1.autosaveOn = true ∧
    (∀ now s, s.stateRestored = true →
      countLoadNotebook (onExtensionReady now s).2 = 0 ∧
      (onExtensionReady now s).1.stateRestored = true) :=
  C1_restore_handshake 10 20 sampleParent ⟨[⟨"print(1)", some 1⟩]⟩ rfl rfl rfl

/-- **C2.** The parent request layer: `sendToExtension` registers the
allocated id as pending; if no reply arrives in time, the 10 s timer
rejects the promise with the timeout error and deletes the
pending-request record.  An incoming reply (a tagged envelope carrying a
reply action and a `requestId`) whose id matches no pending request
leaves the parent state — pending requests, SessionState fields,
resolved/rejected promises, event log — completely unchanged. -/
theorem C2_request_timeout_and_unknown_reply
    (s : ParentState) (action : String) (now : Nat)
    (s2 : ParentState) (m : InMsg) (id2 : Nat)
    (htag : m.tag = "zest-jupyter")
    (hrid : m.requestId = some id2)
    (hunknown : id2 ∉ s2.pending)
    (hreply : m.action ∈ replyActions) :
    ((sendToExtension s).2 ∈ (sendToExtension s).1.pending) ∧
    (sendToExtension s).2 ∉
      (fireTimeout (sendToExtension s).1 (sendToExtension s).2 action).pending ∧
    ((sendToExtension s).2, "Extension request timeout: " ++ action) ∈
      (fireTimeout (sendToExtension s).1 (sendToExtension s).2 action).rejected ∧
    handleMessage now .childFrame (some m) s2 = (s2, []) := by
  have hdisp : dispatchAction now m s2 = (s2, []) := by
    simp only [replyActions, List.mem_cons, List.not_mem_nil, or_false] at hreply
    rcases hreply with h | h | h | h | h | h | h | h <;> simp [dispatchAction, h]
  refine ⟨?_, ?_, ?_, ?_⟩
  · simp [sendToExtension]
  · simp [sendToExtension, fireTimeout, List.mem_filter]
  · simp [sendToExtension, fireTimeout]
  · simp [handleMessage, htag, hrid, hunknown, hdisp]

/-- Witness for `C2_request_timeout_and_unknown_reply`: a concrete
request that times out, and a concrete stray `filesLoaded` reply with an
unknown id dropped without effect. -/
theorem C2_request_timeout_and_unknown_reply_witness :
    ((sendToExtension sampleParent).2 ∈ (sendToExtension sampleParent).1.pending) ∧
    (sendToExtension sampleParent).2 ∉
      (fireTimeout (sendToExtension sampleParent).1 (sendToExtension sampleParent).2
        "getNotebook").pending ∧
    ((sendToExtension sampleParent).2, "Extension request timeout: " ++ "getNotebook") ∈
      (fireTimeout (sendToExtension sampleParent).1 (sendToExtension sampleParent).2
        "getNotebook").rejected ∧
    handleMessage 0 .childFrame
      (some ⟨"zest-jupyter", "filesLoaded", some 7, {}⟩) sampleParent =
      (sampleParent, []) :=
  C2_request_timeout_and_unknown_reply sampleParent "getNotebook" 0 sampleParent
    ⟨"zest-jupyter", "filesLoaded", some 7, {}⟩ 7 rfl rfl
    (by simp [sampleParent]) (by simp [replyActions])

/-- Counterexample to **C4** as stated: submitting from a fresh state
(`submitted = false`) and receiving a server failure re-enables the
control, but the `submitted` flag is *not* false afterwards — `doSubmit`
set it to `true` (and persisted it via `Zest.saveState`) before
`Zest.submitWork` ran, and the failure handler does not clear it. -/
theorem C4_counterexample :
    sampleParent.submitted = false ∧
    (doSubmit 0 sampleParent {} (.serverFailure "HTTP 500")).ui.enabled = true ∧
    ¬ ((doSubmit 0 sampleParent {} (.serverFailure "HTTP 500")).state.submitted = false) ∧
    (doSubmit 0 sampleParent {} (.serverFailure "HTTP 500")).persistedSubmitted = true := by
  refine ⟨rfl, rfl, ?_, rfl⟩
  simp [doSubmit]

/-- **C4 (amended).** When a submission fails (the server reports failure
or the call rejects), the submit control is re-enabled with label
"Retry Submit" for manual retry; however the `submitted` flag was set to
`true` — and persisted as `true` — *before* `Zest.submitWork` was
invoked, and the failure handlers leave it `true`.  The flag is cleared
only at the next session initialisation. -/
theorem C4_submit_failure (now : Nat) (s : ParentState) (data : SubmitPayload)
    (err : String) (result : SubmitResult)
    (hfail : result = .serverFailure err ∨ result = .callRejected err) :
    (doSubmit now s data result).ui.enabled = true ∧
    (doSubmit now s data result).ui.label = "Retry Submit" ∧
    (doSubmit now s data result).state.submitted = true ∧
    (doSubmit now s data result).persistedSubmitted = true ∧
    (∀ saved fresh, (initLoadedState saved fresh).submitted = false) := by
  rcases hfail with h | h <;> subst h <;>
    exact ⟨rfl, rfl, rfl, rfl, fun saved fresh => rfl⟩

/-- Witness for `C4_submit_failure` on a concrete failed submission. -/
theorem C4_submit_failure_witness :
    (doSubmit 0 sampleParent {} (.callRejected "timeout")).ui.enabled = true ∧
    (doSubmit 0 sampleParent {} (.callRejected "timeout")).ui.label = "Retry Submit" ∧
    (doSubmit 0 sampleParent {} (.callRejected "timeout")).state.submitted = true ∧
    (doSubmit 0 sampleParent {} (.callRejected "timeout")).persistedSubmitted = true ∧
    (∀ saved fresh, (initLoadedState saved fresh).submitted = false) :=
  C4_submit_failure 0 sampleParent {} "timeout" (.callRejected "timeout") (Or.inr rfl)

theorem envShape_updateEnv (name : String) (db db2 : Database)
    (hv : db2.version = db.version) (hs : db2.storeNames = db.storeNames) :
    ∀ env : Env, envLookup name env = some db →
      envShape (updateEnv env name db2) = envShape env := by
  intro env
  induction env with
  | nil => intro h; simp [envLookup] at h
  | cons nd rest ih =>
    intro h
    by_cases hk : nd.1 = name
    · have hdb : nd.2 = db := by
        simp [envLookup, hk] at h
        exact h
      simp [updateEnv, envShape, hk, hv, hs, hdb]
    · have h2 : envLookup name rest = some db := by
        simpa [envLookup, hk] using h
      simp [updateEnv, envShape, hk]
      have := ih h2
      simpa [envShape] using this

theorem envShape_withDB {α : Type} (env : Env) (name : String)
    (cb : Database → Database × Except String α)
    (hcb : ∀ db, (cb db).1.version = db.version ∧
      (cb db).1.storeNames = db.storeNames) :
    envShape (withDB env name cb).1 = envShape env := by
  unfold withDB indexedOpen
  cases henv : envLookup name env with
  | none => rfl
  | some db =>
    exact envShape_updateEnv name db (cb db).1 (hcb db).1 (hcb db).2 env henv

theorem envShape_withTransaction {α : Type} (mode : String)
    (operation : List (String × IModel) →
      List (String × IModel) × Except String α)
    (env : Env) (name : String) :
    envShape (withTransaction mode operation env name).1 = envShape env := by
  unfold withTransaction
  apply envShape_withDB
  intro db
  refine ⟨?_, ?_⟩ <;> split <;> rfl

theorem envShape_readItem (env : Env) (cached : Option String) (path : String) :
    envShape (readItem env cached path).env = envShape env := by
  unfold readItem
  cases hd : discoverDatabaseName env cached with
  | mk r tr =>
    cases r with
    | none => rfl
    | some name => exact envShape_withTransaction _ _ env name

theorem envShape_writeItem (env : Env) (cached : Option String)
    (path : String) (model : IModel) :
    envShape (writeItem env cached path model).env = envShape env := by
  unfold writeItem
  cases hd : discoverDatabaseName env cached with
  | mk r tr =>
    cases r with
    | none => rfl
    | some name => exact envShape_withTransaction _ _ env name

theorem envShape_getAllKeys (env : Env) (cached : Option String) :
    envShape (getAllKeys env cached).env = envShape env := by
  unfold getAllKeys
  cases hd : discoverDatabaseName env cached with
  | mk r tr =>
    cases r with
    | none => rfl
    | some name => exact envShape_withTransaction _ _ env name

theorem envShape_getAllItems (env : Env) (cached : Option String) :
    envShape (getAllItems env cached).env = envShape env := by
  unfold getAllItems
  cases hd : discoverDatabaseName env cached with
  | mk r tr =>
    cases r with
    | none => rfl
    | some name => exact envShape_withTransaction _ _ env name

/-- **C5.** When the platform signals a schema upgrade on open (the
database does not exist at the current version), every adapter open path
— `withDB` (v3.1), the discovery probe `tryOpenWithFilesStore` (v3.1) and
`openDatabase` (v3) — aborts the upgrade transaction and fails the
operation with an error, leaving the environment untouched; and no
adapter operation ever changes the set of databases, their versions or
their collections (`envShape` is invariant under every
read/write/enumerate). -/
theorem C5_upgrade_abort (env : Env) (name : String) (cached : Option String)
    (path : String) (model : IModel) (st : ShimV3State)
    (cb : Database → Database × Except String Unit)
    (hmissing : envLookup name env = none) :
    withDB env name cb =
      (env, .error "DB upgrade needed — localforage may be initializing", []) ∧
    tryOpenWithFilesStore env name = (none, []) ∧
    openDatabase env st name = (env, st, none, []) ∧
    envShape (readItem env cached path).env = envShape env ∧
    envShape (writeItem env cached path model).env = envShape env ∧
    envShape (getAllKeys env cached).env = envShape env ∧
    envShape (getAllItems env cached).env = envShape env := by
  refine ⟨?_, ?_, ?_, envShape_readItem env cached path,
    envShape_writeItem env cached path model,
    envShape_getAllKeys env cached, envShape_getAllItems env cached⟩
  · simp [withDB, indexedOpen, hmissing]
  · simp [tryOpenWithFilesStore, indexedOpen, hmissing]
  · simp [openDatabase, indexedOpen, hmissing]

/-- Witness for `C5_upgrade_abort`: opening any name in an empty
environment (no database exists yet) fails without creating anything. -/
theorem C5_upgrade_abort_witness :
    withDB [] "JupyterLite Storage" (fun db => (db, Except.ok ())) =
      ([], .error "DB upgrade needed — localforage may be initializing", []) ∧
    tryOpenWithFilesStore [] "JupyterLite Storage" = (none, []) ∧
    openDatabase [] ⟨none, []⟩ "JupyterLite Storage" = ([], ⟨none, []⟩, none, []) ∧
    envShape (readItem [] none NOTEBOOK_PATH).env = envShape [] ∧
    envShape (writeItem [] none NOTEBOOK_PATH sampleModel).env = envShape [] ∧
    envShape (getAllKeys [] none).env = envShape [] ∧
    envShape (getAllItems [] none).env = envShape [] :=
  C5_upgrade_abort [] "JupyterLite Storage" none NOTEBOOK_PATH sampleModel
    ⟨none, []⟩ (fun db => (db, Except.ok ())) rfl

theorem pairBlocks_append (a b : List String) :
    pairBlocks a ++ pairBlocks b = pairBlocks (a ++ b) := by
  simp [pairBlocks]

theorem withDB_trace {α : Type} (env : Env) (name : String)
    (cb : Database → Database × Except String α) :
    ∃ ns, (withDB env name cb).2.2 = pairBlocks ns := by
  unfold withDB indexedOpen
  cases envLookup name env with
  | none => exact ⟨[], rfl⟩
  | some db => exact ⟨[name], rfl⟩

theorem withTransaction_trace {α : Type} (mode : String)
    (operation : List (String × IModel) →
      List (String × IModel) × Except String α)
    (env : Env) (name : String) :
    ∃ ns, (withTransaction mode operation env name).2.2 = pairBlocks ns := by
  unfold withTransaction
  exact withDB_trace env name _

theorem tryOpenWithFilesStore_trace (env : Env) (name : String) :
    ∃ ns, (tryOpenWithFilesStore env name).2 = pairBlocks ns := by
  unfold tryOpenWithFilesStore indexedOpen
  cases envLookup name env with
  | none => exact ⟨[], rfl⟩
  | some db => exact ⟨[name], rfl⟩

theorem tryCandidates_trace (env : Env) (cs : List String) :
    ∃ ns, (tryCandidates env cs).2 = pairBlocks ns := by
  induction cs with
  | nil => exact ⟨[], rfl⟩
  | cons n rest ih =>
    obtain ⟨ns1, h1⟩ := tryOpenWithFilesStore_trace env n
    obtain ⟨ns2, h2⟩ := ih
    unfold tryCandidates
    cases hp : tryOpenWithFilesStore env n with
    | mk r tr =>
      cases r with
      | some name => exact ⟨ns1, by simpa [hp] using h1⟩
      | none =>
        refine ⟨ns1 ++ ns2, ?_⟩
        have htr : tr = pairBlocks ns1 := by simpa [hp] using h1
        simp [htr, h2, pairBlocks_append]

theorem discoverDatabaseName_trace (env : Env) (cached : Option String) :
    ∃ ns, (discoverDatabaseName env cached).2 = pairBlocks ns := by
  unfold discoverDatabaseName
  cases cached with
  | some n => exact ⟨[], rfl⟩
  | none => exact tryCandidates_trace env _

/-- **C3 (amended).** Connection discipline of the v3.1 adapter: the
connection trace of every operation — `readItem`, `writeItem`,
`getAllKeys`, `getAllItems`, including the discovery probes — is a
concatenation of immediately closed `opened/closed` pairs, so every
connection the operation opens is closed again before its promise
settles, on success and failure paths alike, and no connection outlives
the call.  (The template v3 adapter violates this: see
`C3_counterexample`.) -/
theorem C3_connection_discipline (env : Env) (cached : Option String)
    (path : String) (model : IModel) :
    (∃ ns, (readItem env cached path).trace = pairBlocks ns) ∧
    (∃ ns, (writeItem env cached path model).trace = pairBlocks ns) ∧
    (∃ ns, (getAllKeys env cached).trace = pairBlocks ns) ∧
    (∃ ns, (getAllItems env cached).trace = pairBlocks ns) := by
  obtain ⟨nsd, hd⟩ := discoverDatabaseName_trace env cached
  refine ⟨?_, ?_, ?_, ?_⟩
  · cases hdisc : discoverDatabaseName env cached with
    | mk r tr =>
      have htr : tr = pairBlocks nsd := by simpa [hdisc] using hd
      cases r with
      | none => exact ⟨nsd, by simp [readItem, hdisc, htr]⟩
      | some name =>
        obtain ⟨nsw, hw⟩ := withTransaction_trace "readonly"
          (fun fs => (fs, Except.ok (storeGet path fs))) env name
        refine ⟨nsd ++ nsw, ?_⟩
        simp only [readItem, hdisc]
        rw [htr, hw, pairBlocks_append]
  · cases hdisc : discoverDatabaseName env cached with
    | mk r tr =>
      have htr : tr = pairBlocks nsd := by simpa [hdisc] using hd
      cases r with
      | none => exact ⟨nsd, by simp [writeItem, hdisc, htr]⟩
      | some name =>
        obtain ⟨nsw, hw⟩ := withTransaction_trace "readwrite"
          (fun fs => (putEntry fs path model, Except.ok ())) env name
        refine ⟨nsd ++ nsw, ?_⟩
        simp only [writeItem, hdisc]
        rw [htr, hw, pairBlocks_append]
  · cases hdisc : discoverDatabaseName env cached with
    | mk r tr =>
      have htr : tr = pairBlocks nsd := by simpa [hdisc] using hd
      cases r with
      | none => exact ⟨nsd, by simp [getAllKeys, hdisc, htr]⟩
      | some name =>
        obtain ⟨nsw, hw⟩ := withTransaction_trace "readonly"
          (fun fs => (fs, Except.ok (fs.map Prod.fst))) env name
        refine ⟨nsd ++ nsw, ?_⟩
        simp only [getAllKeys, hdisc]
        rw [htr, hw, pairBlocks_append]
  · cases hdisc : discoverDatabaseName env cached with
    | mk r tr =>
      have htr : tr = pairBlocks nsd := by simpa [hdisc] using hd
      cases r with
      | none => exact ⟨nsd, by simp [getAllItems, hdisc, htr]⟩
      | some name =>
        obtain ⟨nsw, hw⟩ := withTransaction_trace "readonly"
          (fun fs => (fs, Except.ok fs)) env name
        refine ⟨nsd ++ nsw, ?_⟩
        simp only [getAllItems, hdisc]
        rw [htr, hw, pairBlocks_append]

theorem splitSegs_ne_nil (l : List Char) : splitSegs l ≠ [] := by
  cases l with
  | nil => simp [splitSegs]
  | cons c rest =>
    unfold splitSegs
    by_cases h : c = '/' <;> simp [h]

theorem joinSegs_cons_of_ne_nil (s : List Char) (rest : List (List Char))
    (h : rest ≠ []) : joinSegs (s :: rest) = s ++ '/' :: joinSegs rest := by
  cases rest with
  | nil => exact absurd rfl h
  | cons t ts => rfl

theorem joinSegs_splitSegs (l : List Char) : joinSegs (splitSegs l) = l := by
  induction l with
  | nil => rfl
  | cons c rest ih =>
    have hne := splitSegs_ne_nil rest
    rw [show splitSegs (c :: rest) =
      (if c = '/' then [] :: splitSegs rest
       else (c :: (splitSegs rest).headD []) :: (splitSegs rest).tail) from rfl]
    by_cases h : c = '/'
    · rw [if_pos h, joinSegs_cons_of_ne_nil _ _ hne, ih, h]
      rfl
    · rw [if_neg h]
      cases hr : splitSegs rest with
      | nil => exact absurd hr hne
      | cons s0 rs =>
        rw [hr] at ih
        cases rs with
        | nil =>
          simp only [List.headD_cons, List.tail_cons]
          have hs : s0 = rest := ih
          rw [show joinSegs [c :: s0] = c :: s0 from rfl, hs]
        | cons t ts =>
          simp only [List.headD_cons, List.tail_cons]
          rw [joinSegs_cons_of_ne_nil (c :: s0) (t :: ts) (by simp)]
          rw [joinSegs_cons_of_ne_nil s0 (t :: ts) (by simp)] at ih
          rw [← ih]
          rfl

theorem joinPath_splitPath (p : String) : joinPath (splitPath p) = p := by
  unfold joinPath splitPath
  rw [List.map_map]
  have hcomp : String.data ∘ String.mk = id := funext fun l => rfl
  rw [hcomp, List.map_id, joinSegs_splitSegs]

theorem string_mk_append (a b : List Char) :
    String.mk a ++ String.mk b = String.mk (a ++ b) := rfl

theorem string_mk_length (a : List Char) : (String.mk a).length = a.length := rfl

theorem joinSegs_take_drop :
    ∀ (segs : List (List Char)) (k : Nat), 1 ≤ k → k < segs.length →
      joinSegs segs = joinSegs (segs.take k) ++ '/' :: joinSegs (segs.drop k) := by
  intro segs
  induction segs with
  | nil =>
    intro k h1 h2
    simp at h2
  | cons s rest ih =>
    intro k h1 h2
    cases k with
    | zero => omega
    | succ k1 =>
      cases k1 with
      | zero =>
        have hne : rest ≠ [] := by
          intro hk
          subst hk
          simp at h2
        simp only [List.take_succ_cons, List.take_zero, List.drop_succ_cons,
          List.drop_zero]
        rw [joinSegs_cons_of_ne_nil s rest hne]
        rfl
      | succ k2 =>
        have hlt : k2 + 1 < rest.length := by
          simp only [List.length_cons] at h2
          omega
        have hne : rest ≠ [] := by
          intro hk
          subst hk
          simp at hlt
        have htne : rest.take (k2 + 1) ≠ [] := by
          intro hk
          have := congrArg List.length hk
          simp only [List.length_take, List.length_nil] at this
          omega
        simp only [List.take_succ_cons, List.drop_succ_cons]
        rw [joinSegs_cons_of_ne_nil s rest hne,
          joinSegs_cons_of_ne_nil s (rest.take (k2 + 1)) htne,
          ih (k2 + 1) (by omega) hlt]
        simp

theorem joinPath_take_ext (parts : List String) (k : Nat)
    (h1 : 1 ≤ k) (h2 : k < parts.length) :
    ∃ ext : String, ext ≠ "" ∧
      joinPath parts = joinPath (parts.take k) ++ ext ∧
      (joinPath (parts.take k)).length < (joinPath parts).length := by
  have hsegs : k < (parts.map String.data).length := by simpa using h2
  have hmain := joinSegs_take_drop (parts.map String.data) k h1 hsegs
  refine ⟨String.mk ('/' :: joinSegs ((parts.map String.data).drop k)), ?_, ?_, ?_⟩
  · intro hcontr
    have hd := congrArg String.data hcontr
    simp at hd
  · unfold joinPath
    rw [List.map_take, string_mk_append, ← hmain]
  · unfold joinPath
    rw [List.map_take]
    simp only [string_mk_length]
    rw [hmain]
    simp only [List.length_append, List.length_cons]
    omega

/-- **C8.** For every `FileArtifact` whose path has parent segments (at
least two slash-separated parts), the v3.1 restore writes, in order: one
zero-content directory entry (`content: null, size: 0,
type: 'directory'`) per proper path prefix, from the shortest prefix to
the longest (each key strictly extends the previous one), and only then
the leaf file entry at `f.path`; every directory key is a proper strict
prefix of the leaf path. -/
theorem C8_restore_parent_dirs (now : String) (f : FileArtifact)
    (h : 2 ≤ (splitPath f.path).length) :
    ∃ dirs : List WriteOp,
      restoreWritesForFile now f = dirs ++ [⟨f.path, leafEntry now f⟩] ∧
      dirs.length = (splitPath f.path).length - 1 ∧
      (∀ i (hi : i < dirs.length),
        (dirs.get ⟨i, hi⟩).key = joinPath ((splitPath f.path).take (i + 1)) ∧
        (dirs.get ⟨i, hi⟩).value.content = StoreContent.vnull ∧
        (dirs.get ⟨i, hi⟩).value.size = 0 ∧
        (dirs.get ⟨i, hi⟩).value.itype = "directory") ∧
      (∀ i (hi1 : i < dirs.length) (hi2 : i + 1 < dirs.length),
        ∃ ext : String, ext ≠ "" ∧
          (dirs.get ⟨i + 1, hi2⟩).key = (dirs.get ⟨i, hi1⟩).key ++ ext ∧
          (dirs.get ⟨i, hi1⟩).key.length < (dirs.get ⟨i + 1, hi2⟩).key.length) ∧
      (∀ w ∈ dirs, ∃ ext : String, ext ≠ "" ∧ f.path = w.key ++ ext) := by
  have hgt : (splitPath f.path).length > 1 := by omega
  refine ⟨(List.range ((splitPath f.path).length - 1)).map (fun i =>
      WriteOp.mk (joinPath ((splitPath f.path).take (i + 1)))
        (dirEntry now (joinPath ((splitPath f.path).take (i + 1)))
          ((splitPath f.path).getD i ""))), ?_, ?_, ?_, ?_, ?_⟩
  · simp [restoreWritesForFile, hgt]
  · simp
  · intro i hi
    simp [dirEntry]
  · intro i hi1 hi2
    simp only [List.length_map, List.length_range] at hi2
    have hk : i + 1 < ((splitPath f.path).take (i + 2)).length := by
      simp only [List.length_take]
      omega
    obtain ⟨ext, hne, heq, hlen⟩ :=
      joinPath_take_ext ((splitPath f.path).take (i + 2)) (i + 1) (by omega) hk
    rw [List.take_take] at heq hlen
    have hmin : min (i + 1) (i + 2) = i + 1 := by omega
    rw [hmin] at heq hlen
    refine ⟨ext, hne, ?_, ?_⟩ <;>
      simp only [List.get_eq_getElem, List.getElem_map, List.getElem_range] <;>
      first
        | exact heq
        | exact hlen
  · intro w hw
    simp only [List.mem_map, List.mem_range] at hw
    obtain ⟨i, hi, hwi⟩ := hw
    obtain ⟨ext, hne, heq, _⟩ :=
      joinPath_take_ext (splitPath f.path) (i + 1) (by omega) (by omega)
    refine ⟨ext, hne, ?_⟩
    rw [← hwi]
    rw [show (WriteOp.mk (joinPath ((splitPath f.path).take (i + 1)))
      (dirEntry now (joinPath ((splitPath f.path).take (i + 1)))
        ((splitPath f.path).getD i ""))).key =
      joinPath ((splitPath f.path).take (i + 1)) from rfl]
    rw [← heq, joinPath_splitPath]

/-- Witness for `C8_restore_parent_dirs` on the file `data/imgs/x.csv`
(three path segments, two proper prefixes). -/
theorem C8_restore_parent_dirs_witness :
    ∃ dirs : List WriteOp,
      restoreWritesForFile "t1" ⟨"data/imgs/x.csv", none, none, none, .vtext "1,2", none⟩ =
        dirs ++ [⟨"data/imgs/x.csv",
          leafEntry "t1" ⟨"data/imgs/x.csv", none, none, none, .vtext "1,2", none⟩⟩] ∧
      dirs.length = (splitPath "data/imgs/x.csv").length - 1 ∧
      (∀ i (hi : i < dirs.length),
        (dirs.get ⟨i, hi⟩).key =
          joinPath ((splitPath "data/imgs/x.csv").take (i + 1)) ∧
        (dirs.get ⟨i, hi⟩).value.content = StoreContent.vnull ∧
        (dirs.get ⟨i, hi⟩).value.size = 0 ∧
        (dirs.get ⟨i, hi⟩).value.itype = "directory") ∧
      (∀ i (hi1 : i < dirs.length) (hi2 : i + 1 < dirs.length),
        ∃ ext : String, ext ≠ "" ∧
          (dirs.get ⟨i + 1, hi2⟩).key = (dirs.get ⟨i, hi1⟩).key ++ ext ∧
          (dirs.get ⟨i, hi1⟩).key.length < (dirs.get ⟨i + 1, hi2⟩).key.length) ∧
      (∀ w ∈ dirs, ∃ ext : String, ext ≠ "" ∧
        "data/imgs/x.csv" = w.key ++ ext) :=
  C8_restore_parent_dirs "t1" ⟨"data/imgs/x.csv", none, none, none, .vtext "1,2", none⟩
    (by decide)

/-- Counterexample to **C3** as stated: in the template (v3) shim, a
single successful `readItem` settles with the discovered connection still
open and cached (`_db`): the trace has an `opened` with no `closed`, and
the open-connection set is non-empty after the promise settles — the
connection outlives the call. -/
theorem C3_counterexample :
    (readItemV3 sampleEnv ⟨none, []⟩ NOTEBOOK_PATH).2.2.1 =
      Except.ok (some sampleModel) ∧
    (readItemV3 sampleEnv ⟨none, []⟩ NOTEBOOK_PATH).2.1.openConns =
      ["JupyterLite Storage"] ∧
    (readItemV3 sampleEnv ⟨none, []⟩ NOTEBOOK_PATH).2.2.2 =
      [ConnEvent.opened "JupyterLite Storage"] :=
  ⟨rfl, rfl, rfl⟩

theorem checkReadyStep_fail (env : Env) (s : ShimReadyState)
    (h : (discoverDatabaseName env s.dbName).1 = none) :
    checkReadyStep env s = (s, [], true) := by
  unfold checkReadyStep
  rw [h]

theorem checkReadyStep_succeed (env : Env) (name : String)
    (h : (discoverDatabaseName env none).1 = some name) :
    ∃ hw, checkReadyStep env ⟨false, none⟩ =
      (⟨true, some name⟩,
       [{ action := "ready", version := some "3.1.0-indexeddb",
          capabilities := shimCapabilities,
          hasWidget := some hw, dbName := some name }], false) := by
  simp only [checkReadyStep, h]
  exact ⟨_, rfl⟩

theorem checkReadyRun_spec (envs : List Env) :
    ((checkReadyRun envs ⟨false, none⟩).2.map OutMsg.action = [] ∨
     (checkReadyRun envs ⟨false, none⟩).2.map OutMsg.action = ["ready"]) ∧
    ∀ msg ∈ (checkReadyRun envs ⟨false, none⟩).2,
      msg.action = "ready" ∧ msg.capabilities = shimCapabilities ∧
      msg.version = some "3.1.0-indexeddb" ∧ msg.dbName.isSome = true ∧
      ∃ env ∈ envs, (discoverDatabaseName env none).1 = msg.dbName := by
  induction envs with
  | nil =>
    constructor
    · left
      rfl
    · intro msg hmsg
      simp [checkReadyRun] at hmsg
  | cons env rest ih =>
    cases hd : (discoverDatabaseName env none).1 with
    | none =>
      have hstep := checkReadyStep_fail env ⟨false, none⟩ hd
      have hrun : checkReadyRun (env :: rest) ⟨false, none⟩ =
          ((checkReadyRun rest ⟨false, none⟩).1,
           (checkReadyRun rest ⟨false, none⟩).2) := by
        simp [checkReadyRun, hstep]
      rw [hrun]
      refine ⟨ih.1, ?_⟩
      intro msg hmsg
      obtain ⟨ha, hc, hv, hs, env2, henv2, hdisc⟩ := ih.2 msg hmsg
      exact ⟨ha, hc, hv, hs, env2, List.mem_cons_of_mem env henv2, hdisc⟩
    | some name =>
      obtain ⟨hw, hstep⟩ := checkReadyStep_succeed env name hd
      have hrun : checkReadyRun (env :: rest) ⟨false, none⟩ =
          (⟨true, some name⟩,
           [{ action := "ready", version := some "3.1.0-indexeddb",
              capabilities := shimCapabilities,
              hasWidget := some hw, dbName := some name }]) := by
        simp [checkReadyRun, hstep]
      rw [hrun]
      constructor
      · right
        rfl
      · intro msg hmsg
        simp only [List.mem_singleton] at hmsg
        subst hmsg
        exact ⟨rfl, rfl, rfl, rfl, env, List.mem_cons_self env rest, hd⟩

/-- **C9.** In every `checkReady` lifetime — a sequence of discovery
attempts, each retried 2000 ms after a failure — the child emits the
unsolicited `ready` notification at most once, and only by the
invocation whose store discovery succeeded: every emitted message is a
`ready` carrying the capability list and a resolved store identity that
is the result of a successful discovery on one of the attempted
environments; failed attempts emit nothing and only schedule the
retry. -/
theorem C9_ready_once (envs : List Env) :
    ((checkReadyRun envs ⟨false, none⟩).2.map OutMsg.action = [] ∨
     (checkReadyRun envs ⟨false, none⟩).2.map OutMsg.action = ["ready"]) ∧
    (∀ msg ∈ (checkReadyRun envs ⟨false, none⟩).2,
      msg.action = "ready" ∧ msg.capabilities = shimCapabilities ∧
      msg.version = some "3.1.0-indexeddb" ∧ msg.dbName.isSome = true ∧
      ∃ env ∈ envs, (discoverDatabaseName env none).1 = msg.dbName) ∧
    (∀ env s, (discoverDatabaseName env s.dbName).1 = none →
      checkReadyStep env s = (s, [], true)) :=
  ⟨(checkReadyRun_spec envs).1, (checkReadyRun_spec envs).2,
   fun env s h => checkReadyStep_fail env s h⟩

/-- **C10.** A `loadFiles` request whose file list is absent or empty
replies `filesLoaded` with `success: true, count: 0` and performs no
store write at all: the child context (store contents included) after
handling the request equals the context before, and the restore sequence
of an empty list is empty. -/
theorem C10_empty_loadFiles (now : String) (src : MsgSource) (c : ChildCtx)
    (m : InMsg)
    (htag : m.tag = "zest-jupyter") (hact : m.action = "loadFiles")
    (hfiles : m.data.files = none ∨ m.data.files = some []) :
    childHandleMessage now src (some m) c =
      (c, [{ action := "filesLoaded", requestId := m.requestId,
             success := some true, count := some 0 }], false) ∧
    restoreFilesToDB now [] = [] := by
  refine ⟨?_, rfl⟩
  rcases hfiles with h | h <;>
    simp [childHandleMessage, htag, hact, h]

/-- Witness for `C10_empty_loadFiles`: an empty `loadFiles` request on
the empty store. -/
theorem C10_empty_loadFiles_witness :
    childHandleMessage "t" MsgSource.childFrame
      (some ⟨"zest-jupyter", "loadFiles", some 4, { files := some [] }⟩)
      ⟨none, []⟩ =
      (⟨none, []⟩,
       [{ action := "filesLoaded", requestId := some 4,
          success := some true, count := some 0 }], false) ∧
    restoreFilesToDB "t" [] = [] :=
  C10_empty_loadFiles "t" MsgSource.childFrame ⟨none, []⟩
    ⟨"zest-jupyter", "loadFiles", some 4, { files := some [] }⟩
    rfl rfl (Or.inr rfl)

/-- Counterexample to **C7** as stated: the child listener never
consults the event's source.  A correctly-tagged `loadFiles` envelope
delivered from a window that is *not* the parent (`MsgSource.other`) is
processed and writes to the store: the resulting state differs from the
run in which the message never arrived. -/
theorem C7_counterexample :
    (childHandleMessage "t0" MsgSource.other
      (some ⟨"zest-jupyter", "loadFiles", some 3,
        { files := some [⟨"data/x.csv", some "x.csv", some "file",
          some "text", .vtext "1,2", some "text/csv"⟩] }⟩)
      ⟨some "JupyterLite Storage", sampleEnv⟩).1.env ≠ sampleEnv := by
  decide

/-- **C7 (amended).** Both receivers validate the `zest-jupyter`
discriminator tag: an envelope lacking it has no observable effect on
either side.  The parent additionally ignores every message whose source
is not the child frame's window.  The child listener, however, never
consults the source — its behaviour is identical for every source — so
a correctly-tagged envelope from a foreign window is processed (see
`C7_counterexample`). -/
theorem C7_tag_and_source (np : Nat) (nc : String) (src : MsgSource)
    (m mBad : InMsg) (mo : Option InMsg) (s : ParentState) (c : ChildCtx)
    (hsrc : src ≠ MsgSource.childFrame)
    (htag : mBad.tag ≠ "zest-jupyter") :
    handleMessage np src mo s = (s, []) ∧
    handleMessage np MsgSource.childFrame (some mBad) s = (s, []) ∧
    childHandleMessage nc src (some mBad) c = (c, [], false) ∧
    (∀ s1 s2 : MsgSource,
      childHandleMessage nc s1 (some m) c = childHandleMessage nc s2 (some m) c) := by
  refine ⟨?_, ?_, ?_, fun s1 s2 => rfl⟩
  · simp [handleMessage, hsrc]
  · simp [handleMessage, htag]
  · simp [childHandleMessage, htag]

/-- Witness for `C7_tag_and_source`: a foreign-source message and an
untagged message, both without effect on the respective receiver. -/
theorem C7_tag_and_source_witness :
    handleMessage 0 MsgSource.other
      (some ⟨"zest-jupyter", "ready", none, {}⟩) sampleParent =
      (sampleParent, []) ∧
    handleMessage 0 MsgSource.childFrame
      (some ⟨"platform-noise", "ready", none, {}⟩) sampleParent =
      (sampleParent, []) ∧
    childHandleMessage "t" MsgSource.other
      (some ⟨"platform-noise", "ready", none, {}⟩) ⟨none, []⟩ =
      (⟨none, []⟩, [], false) ∧
    (∀ s1 s2 : MsgSource,
      childHandleMessage "t" s1
        (some ⟨"zest-jupyter", "ready", none, {}⟩) ⟨none, []⟩ =
      childHandleMessage "t" s2
        (some ⟨"zest-jupyter", "ready", none, {}⟩) ⟨none, []⟩) :=
  C7_tag_and_source 0 "t" MsgSource.other
    ⟨"zest-jupyter", "ready", none, {}⟩ ⟨"platform-noise", "ready", none, {}⟩
    (some ⟨"zest-jupyter", "ready", none, {}⟩) sampleParent ⟨none, []⟩
    (by decide) (by decide)

end ZestBridge
